import Mathlib

/-!
Verification development for the MigrateModusApi repository.

Shallow embedding of the two core subsystems:
- the context retrieval engine (src/core/vector_retrieval.py), and
- the pipeline state machine (src/workflow/langgraph_workflow.py with
  src/workflow/migration_state.py).

Python strings are modelled as Lean `String`, manipulated through
executable `List Char` primitives so that every definition reduces in the
kernel.  Python dicts are modelled as association lists with
insert-or-overwrite semantics.  The external collaborators (FAISS vector
store, Azure LLM, JSON codec) are modelled as explicit parameters or as
executable reference implementations, as documented at each definition.
-/

namespace MigrateModus

/-- JSON values, modelling the values produced by Python json.loads.
The model restricts numbers to integers and strings to escape-free text;
every claim in this development is insensitive to that restriction. -/
inductive Json where
  | null : Json
  | bool (b : Bool) : Json
  | num (n : Int) : Json
  | str (s : String) : Json
  | arr (elems : List Json) : Json
  | obj (fields : List (String × Json)) : Json

/-- Association-list lookup, modelling Python dict.get / dict[k] with
first-binding-wins semantics (keys are unique in every dict we build). -/
def alookup {α : Type} : List (String × α) → String → Option α
  | [], _ => none
  | kv :: rest, key => if kv.1 = key then some kv.2 else alookup rest key

/-- Insert-or-overwrite on an association list, modelling Python
dict assignment d[k] = v. -/
def dinsert {α : Type} (d : List (String × α)) (k : String) (v : α) :
    List (String × α) :=
  if (d.map Prod.fst).contains k then
    d.map (fun kv => if kv.1 = k then (k, v) else kv)
  else d ++ [(k, v)]

/-- Python str.strip(chars): drop characters belonging to the set `bad`
from both ends of the string.  This is a character-set strip, not a
substring removal: the distinction is load-bearing for claim C8. -/
def stripChars (s : String) (bad : String) : String :=
  String.mk
    (((s.data.dropWhile (fun c => bad.data.contains c)).reverse.dropWhile
        (fun c => bad.data.contains c)).reverse)

/-- The whitespace set of Python str.strip() with no argument
(ASCII fragment; the claims never exercise non-ASCII whitespace). -/
def pyWhitespace : List Char := [' ', '\t', '\n', '\r', '\x0b', '\x0c']

/-- Python str.strip() with no argument. -/
def stripWs (s : String) : String :=
  String.mk
    (((s.data.dropWhile (fun c => pyWhitespace.contains c)).reverse.dropWhile
        (fun c => pyWhitespace.contains c)).reverse)

/-- Substring test on character lists. -/
def subAux (pat : List Char) : List Char → Bool
  | [] => pat.isEmpty
  | c :: cs => pat.isPrefixOf (c :: cs) || subAux pat cs

/-- Python substring membership test `pat in s`. -/
def containsSub (s pat : String) : Bool := subAux pat.data s.data

/-- Python single-character membership test `c in s`. -/
def containsChar (s : String) (c : Char) : Bool := s.data.contains c

/-- Lowercasing, modelling Python str.lower() on ASCII text. -/
def toLowerS (s : String) : String := String.mk (s.data.map Char.toLower)

/-- Uppercasing, modelling Python str.upper() on ASCII text. -/
def toUpperS (s : String) : String := String.mk (s.data.map Char.toUpper)

/-- Helper for strReplace: fuelled scan replacing occurrences of `pat`. -/
def replaceSubAux (pat repl : List Char) : Nat → List Char → List Char
  | _, [] => []
  | 0, cs => cs
  | fuel + 1, c :: cs =>
    if pat ≠ [] ∧ pat.isPrefixOf (c :: cs) then
      repl ++ replaceSubAux pat repl fuel ((c :: cs).drop pat.length)
    else c :: replaceSubAux pat repl fuel cs

/-- Python str.replace(pat, repl): replace every non-overlapping
occurrence of `pat`, scanning left to right.  Never called with an empty
pattern in this development. -/
def strReplace (s pat repl : String) : String :=
  String.mk (replaceSubAux pat.data repl.data s.data.length s.data)

/-- Lines of a document, modelling str.splitlines restricted to the
newline terminator (the documents the claims exercise use plain \n;
a trailing newline yields an extra empty line, which no extraction rule
in this development can match). -/
def splitLines (doc : String) : List String :=
  ((doc.data.foldr
      (fun c acc =>
        match acc with
        | [] => [[c]]
        | cur :: rest => if c = '\n' then [] :: cur :: rest else (c :: cur) :: rest)
      [[]]).map String.mk)

/-- Blank-separated joining, modelling Python sep.join(list). -/
def joinSep (sep : String) : List String → String
  | [] => ""
  | [x] => x
  | x :: xs => x ++ sep ++ joinSep sep xs

/-- JSON whitespace skipping. -/
def skipWs (cs : List Char) : List Char :=
  cs.dropWhile (fun c => c = ' ' || c = '\t' || c = '\n' || c = '\r')

/-- Decimal digit test. -/
def isDigitC (c : Char) : Bool := '0' ≤ c && c ≤ '9'

/-- Numeric value of a digit run. -/
def digitsToNat (ds : List Char) : Nat :=
  ds.foldl (fun n c => 10 * n + (c.toNat - 48)) 0

/-- Parse a JSON string literal body (after the opening quote); the model
accepts escape-free content only, which suffices for every claim. -/
def parseStringLit (cs : List Char) : Option (String × List Char) :=
  let content := cs.takeWhile (fun c => c ≠ '"' && c ≠ '\\')
  match cs.drop content.length with
  | '"' :: rest => some (String.mk content, rest)
  | _ => none

mutual

/-- Fuelled JSON value parser, an executable reference model of the
external Python json.loads collaborator (integer numerals, escape-free
strings). -/
def parseValue : Nat → List Char → Option (Json × List Char)
  | 0, _ => none
  | fuel + 1, cs0 =>
    match skipWs cs0 with
    | [] => none
    | c :: rest =>
      if c = 'n' then
        if rest.take 3 = ['u', 'l', 'l'] then some (Json.null, rest.drop 3) else none
      else if c = 't' then
        if rest.take 3 = ['r', 'u', 'e'] then some (Json.bool true, rest.drop 3) else none
      else if c = 'f' then
        if rest.take 4 = ['a', 'l', 's', 'e'] then some (Json.bool false, rest.drop 4) else none
      else if c = '"' then
        match parseStringLit rest with
        | some sr => some (Json.str sr.1, sr.2)
        | none => none
      else if c = '-' then
        match rest.takeWhile isDigitC with
        | [] => none
        | ds => some (Json.num (-(digitsToNat ds : Int)), rest.drop ds.length)
      else if isDigitC c then
        let ds := (c :: rest).takeWhile isDigitC
        some (Json.num (digitsToNat ds), (c :: rest).drop ds.length)
      else if c = '[' then
        match skipWs rest with
        | ']' :: rest2 => some (Json.arr [], rest2)
        | other => match parseItems fuel other with
          | some vr => some (Json.arr vr.1, vr.2)
          | none => none
      else if c = '\x7b' then
        match skipWs rest with
        | '\x7d' :: rest2 => some (Json.obj [], rest2)
        | other => match parseFields fuel other with
          | some fr => some (Json.obj fr.1, fr.2)
          | none => none
      else none

/-- Comma-separated array items up to the closing bracket. -/
def parseItems : Nat → List Char → Option (List Json × List Char)
  | 0, _ => none
  | fuel + 1, cs =>
    match parseValue fuel cs with
    | none => none
    | some vr =>
      match skipWs vr.2 with
      | ',' :: rest2 =>
        match parseItems fuel rest2 with
        | some tail => some (vr.1 :: tail.1, tail.2)
        | none => none
      | ']' :: rest2 => some ([vr.1], rest2)
      | _ => none

/-- Comma-separated object fields up to the closing brace. -/
def parseFields : Nat → List Char → Option (List (String × Json) × List Char)
  | 0, _ => none
  | fuel + 1, cs =>
    match skipWs cs with
    | '"' :: rest =>
      match parseStringLit rest with
      | none => none
      | some kr =>
        match skipWs kr.2 with
        | ':' :: rest2 =>
          match parseValue fuel rest2 with
          | none => none
          | some vr =>
            match skipWs vr.2 with
            | ',' :: rest3 =>
              match parseFields fuel rest3 with
              | some tail => some ((kr.1, vr.1) :: tail.1, tail.2)
              | none => none
            | '\x7d' :: rest3 => some ([(kr.1, vr.1)], rest3)
            | _ => none
        | _ => none
    | _ => none

end

/-- Top-level JSON parse, modelling json.loads: the whole input, up to
surrounding whitespace, must be consumed. -/
def parseJson (s : String) : Option Json :=
  match parseValue (2 * s.data.length + 2) s.data with
  | some vr => if skipWs vr.2 = [] then some vr.1 else none
  | none => none

/-!
Context retrieval engine, from src/core/vector_retrieval.py.
-/

/-- An indexed chunk: langchain Document with page_content and the
metadata source field produced by build_vector_context.chunk_content. -/
structure Doc where
  page_content : String
  source : String
deriving DecidableEq

/-- The FAISS vector store: the chunks it was built from (docs) and the
ranked nearest-neighbour answer function similarity_search, kept opaque
because the embedding collaborator is an external service. -/
structure VectorDB where
  docs : List Doc
  similarity_search : String → Nat → List Doc

/-- The retrieval-time workflow state dict (data/workflow_state.json):
the code reads only its Mapping_v1_v2 entry, a dict from normalized v1
filenames to v2 filenames or the sentinel. -/
structure RetrievalState where
  Mapping_v1_v2 : List (String × String)
deriving DecidableEq

/-- Characters admitted by the [a-z-] class of the tag regex. -/
def tagBodyChar (c : Char) : Bool := c = '-' || ('a' ≤ c && c ≤ 'z')

/-- Match of the regex modus(?:-wc)?-[a-z-]+ at the start of cs (the text
following a <).  Because w and c lie in [a-z], the regex denotes the same
language as modus-[a-z-]+, and the greedy engine returns modus followed by
the maximal run of [a-z-] characters, provided that run starts with a
dash and has at least one further character. -/
def matchModusTag (cs : List Char) : Option String :=
  if cs.take 5 = ['m', 'o', 'd', 'u', 's'] then
    match (cs.drop 5).takeWhile tagBodyChar with
    | '-' :: c2 :: run => some (String.mk (['m', 'o', 'd', 'u', 's', '-', c2] ++ run))
    | _ => none
  else none

/-- The matches of re.findall(r"<(modus(?:-wc)?-[a-z-]+)", code), in
order.  findall resumes scanning after each match; advancing one
character instead is equivalent here because a match can only start at a
< and the matched region contains no further <. -/
def findModusTags : List Char → List String
  | [] => []
  | '<' :: rest =>
    (match matchModusTag rest with
     | some tag => tag :: findModusTags rest
     | none => findModusTags rest)
  | _ :: rest => findModusTags rest

/-- Order-preserving deduplication, modelling list(dict.fromkeys(l)). -/
def dedupKeepFirst (l : List String) : List String :=
  l.foldl (fun acc x => if acc.contains x then acc else acc ++ [x]) []

/-- The V2 branch of retrieve_context_by_section for one tag: mapping
lookup with sentinel test, exact-source filter over the broad candidates,
bounded full-scan fallback, then the k_pick cap.  Returns the chunk texts
this tag contributes to the v2 bucket. -/
def v2_hits_for_tag (db : VectorDB) (all_results : List Doc)
    (mapping : List (String × String)) (tag : String) (k_pick : Nat) :
    List String :=
  let v1_key := tag ++ ".tsx"
  match alookup mapping v1_key with
  | none => []
  | some v2_file =>
    if v2_file ≠ "" ∧ v2_file ≠ "Not Found" then
      let source_key := "v2_component:" ++ v2_file
      let exact_hits := all_results.filter (fun d => d.source = source_key)
      let exact_hits :=
        if exact_hits.isEmpty then
          (db.similarity_search "" 1000).filter (fun d => d.source = source_key)
        else exact_hits
      (exact_hits.take k_pick).map Doc.page_content
    else []

/-- The V1 branch of retrieve_context_by_section for one tag: exact-source
filter over the broad candidates only (no fallback scan), k_pick cap. -/
def v1_hits_for_tag (all_results : List Doc) (tag : String) (k_pick : Nat) :
    List String :=
  let v1_source := "v1_component:" ++ tag ++ ".tsx"
  let v1_hits := all_results.filter (fun d => d.source = v1_source)
  (v1_hits.take k_pick).map Doc.page_content

/-- Section keys of the section_hits dict, in emission order. -/
def sectionNames : List String := ["v1_component", "v2_component"]

/-- retrieve_context_by_section(code, k_search, k_pick, state) from
src/core/vector_retrieval.py: broad similarity search, tag extraction and
dedup, mapping resolution from the optional state dict, per-tag v1/v2
bucket accumulation, and the two labelled output blocks.  Total function:
the Python original raises no exception on these inputs (state=None is
guarded by the conditional expression on line 54). -/
def retrieve_context_by_section (db : VectorDB) (code : String)
    (k_search : Nat) (k_pick : Nat) (state : Option RetrievalState) : String :=
  let all_results := db.similarity_search code k_search
  let raw_tags := findModusTags code.data
  let tags := dedupKeepFirst raw_tags
  let mapping :=
    match state with
    | some st => st.Mapping_v1_v2
    | none => []
  let buckets := tags.foldl
    (fun (acc : List String × List String) tag =>
      (acc.1 ++ v1_hits_for_tag all_results tag k_pick,
       acc.2 ++ v2_hits_for_tag db all_results mapping tag k_pick))
    ([], [])
  let combined := sectionNames.map (fun sectionKey =>
    let header := strReplace (toUpperS sectionKey) "_" " "
    let hits := if sectionKey = "v1_component" then buckets.1 else buckets.2
    let snippets := if hits.isEmpty then ["<no content>"] else hits
    "### " ++ header ++ "\n" ++ joinSep "\n\n" snippets)
  joinSep "\n\n" combined

/-- The mapping dict read from the optional retrieval state
(state.get("Mapping_v1_v2", {}) if state else {}). -/
def mappingOf : Option RetrievalState → List (String × String)
  | some st => st.Mapping_v1_v2
  | none => []

/-- The v1 bucket of retrieve_context_by_section, as a list of chunk
texts in contribution order. -/
def v1_bucket (db : VectorDB) (code : String) (k_search k_pick : Nat) :
    List String :=
  (dedupKeepFirst (findModusTags code.data)).flatMap
    (fun tag => v1_hits_for_tag (db.similarity_search code k_search) tag k_pick)

/-- The v2 bucket of retrieve_context_by_section, as a list of chunk
texts in contribution order. -/
def v2_bucket (db : VectorDB) (code : String) (k_search k_pick : Nat)
    (state : Option RetrievalState) : List String :=
  (dedupKeepFirst (findModusTags code.data)).flatMap
    (fun tag =>
      v2_hits_for_tag db (db.similarity_search code k_search) (mappingOf state)
        tag k_pick)

/-- Placeholder substitution for an empty bucket
(section_hits[section] or ["<no content>"]). -/
def orPlaceholder (l : List String) : List String :=
  if l.isEmpty then ["<no content>"] else l

/-!
Pipeline state machine, from src/workflow/langgraph_workflow.py and
src/workflow/migration_state.py.
-/

/-- MigrationState (pydantic model).  The component dicts hold arbitrary
JSON records; component_map, constraints, migration_plan and
verification_rules hold whatever JSON the stages assign (pydantic does
not re-validate on assignment), so they are modelled as Json values whose
empty defaults are obj [] and arr []. -/
structure MigrationState where
  v1_components : List (String × Json)
  v2_components : List (String × Json)
  component_map : Json
  constraints : Json
  migration_plan : Json
  verification_rules : Json
  current_file : Option String
  modified_code : List (String × String)
  action : String

/-- A row of the relational metadata store (db.schema.ContextUnit). -/
structure ContextUnit where
  type_ : String
  name : String
  content : String
deriving DecidableEq

/-- True when the stripped content starts with [ or \x7b, the condition
under which load_context_units attempts a JSON parse. -/
def looksJson (content : String) : Bool :=
  match (stripWs content).data with
  | c :: _ => c = '[' || c = '\x7b'
  | [] => false

/-- load_context_units(session, type_): filter rows by type, JSON-parse
contents that look like JSON (a parse failure is caught and the row is
skipped), keep other contents as strings, collect into a dict. -/
def load_context_units (session : List ContextUnit) (type_ : String) :
    List (String × Json) :=
  (session.filter (fun u => u.type_ = type_)).foldl
    (fun units u =>
      if looksJson u.content then
        match parseJson u.content with
        | some j => dinsert units u.name j
        | none => units
      else dinsert units u.name (Json.str u.content))
    []

/-- True on JSON objects, modelling isinstance(x, dict). -/
def isObj : Json → Bool
  | Json.obj _ => true
  | _ => false

/-- Key update on a JSON object, modelling comp[k] = v.  On a non-object
the Python original raises TypeError; the model returns the value
unchanged (no claim exercises that path). -/
def setKey (j : Json) (k : String) (v : Json) : Json :=
  match j with
  | Json.obj fs => Json.obj (dinsert fs k v)
  | other => other

/-- Defaulted key read on a JSON object, modelling comp.get(k, d). -/
def getKeyD (j : Json) (k : String) (d : Json) : Json :=
  match j with
  | Json.obj fs => (alookup fs k).getD d
  | _ => d

/-- Attach documentation to each component dict
(comp["documentation"] = docs.get(name.replace(".tsx", ""), ""),
guarded by isinstance(comp, dict)). -/
def attach_docs (comps docs : List (String × Json)) : List (String × Json) :=
  comps.map (fun nc =>
    let doc := (alookup docs (strReplace nc.1 ".tsx" "")).getD (Json.str "")
    if isObj nc.2 then (nc.1, setKey nc.2 "documentation" doc) else nc)

/-- load_context stage: bulk-load the seven categories from the metadata
store, attach docs to components, and write v1_components, v2_components,
migration_plan, verification_rules and (when any constraint rows exist)
constraints, unwrapping a single wrapped constraints object. -/
def load_context (session : List ContextUnit) (state : MigrationState) :
    MigrationState :=
  let v1_components := load_context_units session "v1_components"
  let v2_components := load_context_units session "v2_components"
  let v1_docs := load_context_units session "v1_docs"
  let v2_docs := load_context_units session "v2_docs"
  let migration_plan := load_context_units session "migration_plan"
  let verification_rules := load_context_units session "verification_rules"
  let constraints := load_context_units session "constraints"
  let state1 :=
    { state with
      v1_components := attach_docs v1_components v1_docs,
      v2_components := attach_docs v2_components v2_docs,
      migration_plan := Json.arr (migration_plan.map Prod.snd),
      verification_rules := Json.arr (verification_rules.map Prod.snd) }
  match constraints.map Prod.snd with
  | [] => state1
  | firstVal :: restVals =>
    match firstVal with
    | Json.obj fs =>
      (match alookup fs "constraints" with
       | some inner => { state1 with constraints := inner }
       | none =>
         { state1 with constraints := Json.arr (Json.obj fs :: restVals) })
    | otherVal =>
      { state1 with constraints := Json.arr (otherVal :: restVals) }

/-- String content of an attached documentation value.  A non-string
truthy documentation value makes the Python original raise at
doc.splitlines(); no claim exercises that path. -/
def docStringOf : Json → String
  | Json.str s => s
  | _ => ""

/-- Text of a line before its first colon (line.split(":", 1)[0]). -/
def beforeColon (line : String) : String :=
  String.mk (line.data.takeWhile (fun c => c ≠ ':'))

/-- The candidate property a line of documentation contributes in
extract_props, if any: the line must contain a colon and the token
"props" or "property" case-insensitively, and the stripped text before
the colon must be nonempty and not itself "props"/"properties". -/
def line_prop (line : String) : Option String :=
  if containsChar line ':' &&
      (containsSub (toLowerS line) "props" || containsSub (toLowerS line) "property") then
    let prop := stripWs (beforeColon line)
    if prop ≠ "" && !(toLowerS prop = "props" || toLowerS prop = "properties") then
      some prop
    else none
  else none

/-- Set insertion modelling props.add(prop): first-insertion order stands
in for the unspecified iteration order of a Python set; every claim about
the result is order-insensitive. -/
def insertNew (l : List String) (x : String) : List String :=
  if l.contains x then l else l ++ [x]

/-- extract_props(doc) from the analyze_components stage. -/
def extract_props (doc : String) : List String :=
  if doc = "" then []
  else
    (splitLines doc).foldl
      (fun props line =>
        match line_prop line with
        | some p => insertNew props p
        | none => props)
      []

/-- Per-component update of analyze_components:
comp["props"] = extract_props(comp.get("documentation", "")). -/
def update_props (comp : Json) : Json :=
  let doc := docStringOf (getKeyD comp "documentation" (Json.str ""))
  setKey comp "props" (Json.arr ((extract_props doc).map Json.str))

/-- analyze_components stage: deterministic, no model call; rewrites the
props entry of every v1 and v2 component record. -/
def analyze_components (state : MigrationState) : MigrationState :=
  { state with
    v1_components := state.v1_components.map (fun nc => (nc.1, update_props nc.2)),
    v2_components := state.v2_components.map (fun nc => (nc.1, update_props nc.2)) }

/-- Decimal digits of a natural number, with fuel. -/
def natToStrAux : Nat → Nat → List Char
  | 0, _ => []
  | fuel + 1, n =>
    if n < 10 then [Char.ofNat (48 + n)]
    else natToStrAux fuel (n / 10) ++ [Char.ofNat (48 + n % 10)]

/-- Decimal rendering of a natural number. -/
def natToStr (n : Nat) : String := String.mk (natToStrAux (n + 1) n)

/-- Decimal rendering of an integer. -/
def intToStr : Int → String
  | Int.ofNat n => natToStr n
  | Int.negSucc n => "-" ++ natToStr (n + 1)

mutual

/-- Compact serialization of a JSON value, modelling json.dumps.  The
Python calls use indent=2 pretty-printing; the serialized text only feeds
model prompts, and every claim quantifies over the model function, so the
layout difference is immaterial. -/
def dumps : Json → String
  | Json.null => "null"
  | Json.bool true => "true"
  | Json.bool false => "false"
  | Json.num n => intToStr n
  | Json.str s => "\"" ++ s ++ "\""
  | Json.arr xs => "[" ++ dumpsList xs ++ "]"
  | Json.obj fs => "\x7b" ++ dumpsFields fs ++ "\x7d"

/-- Comma-joined serialization of array elements. -/
def dumpsList : List Json → String
  | [] => ""
  | [x] => dumps x
  | x :: y :: xs => dumps x ++ ", " ++ dumpsList (y :: xs)

/-- Comma-joined serialization of object fields. -/
def dumpsFields : List (String × Json) → String
  | [] => ""
  | [kv] => "\"" ++ kv.1 ++ "\": " ++ dumps kv.2
  | kv :: kw :: fs => "\"" ++ kv.1 ++ "\": " ++ dumps kv.2 ++ ", " ++ dumpsFields (kw :: fs)

end

/-- The inline markdown-fence cleaning applied by every generative stage:
response.strip("```json\n").strip("```").strip().  Python str.strip takes
a character set, so the first call strips any run of the characters
backtick, j, s, o, n and newline from both ends, not the literal marker
"```json". -/
def clean_response (response : String) : String :=
  stripWs (stripChars (stripChars response "```json\n") "```")

/-- The shared structured-response decode of the generative stages:
fence-character cleaning, JSON parse, parsed value on success, the
caller-supplied default on parse failure (the Python except branch; the
model is total because the exception is always caught). -/
def decode_structured (response : String) (dflt : Json) : Json :=
  match parseJson (clean_response response) with
  | some v => v
  | none => dflt

/-- Prompt of the generate_mapping stage (content abbreviated to the
state-dependent parts; prompts are opaque inputs of the quantified model
function). -/
def mapping_prompt (state : MigrationState) : String :=
  "Generate a component mapping from Modus 1.0 to Modus 2.0.\nV1 Components: "
    ++ dumps (Json.arr (state.v1_components.map (fun kv => Json.str kv.1)))
    ++ "\nV2 Components: "
    ++ dumps (Json.arr (state.v2_components.map (fun kv => Json.str kv.1)))
    ++ "\nReturn ONLY the JSON object."

/-- Prompt of the generate_constraints stage. -/
def constraints_prompt (state : MigrationState) : String :=
  "Based on this component mapping:\n" ++ dumps state.component_map
    ++ "\nIdentify potential migration constraints.\nReturn ONLY the JSON list."

/-- Prompt of the generate_plan stage. -/
def plan_prompt (state : MigrationState) : String :=
  "Generate a step-by-step migration plan based on:\nMapping: "
    ++ dumps state.component_map ++ "\nConstraints: " ++ dumps state.constraints
    ++ "\nReturn ONLY the JSON list."

/-- Prompt of the generate_verification_rules stage. -/
def rules_prompt (state : MigrationState) : String :=
  "Generate verification rules based on:\nPlan: " ++ dumps state.migration_plan
    ++ "\nConstraints: " ++ dumps state.constraints
    ++ "\nMapping: " ++ dumps state.component_map
    ++ "\nReturn ONLY the JSON list."

/-- generate_mapping stage: prompt the model (cached_llm_invoke, modelled
as the function llm), clean fences, parse JSON into component_map; on
parse failure log and fall back to the empty dict. -/
def generate_mapping (llm : String → String) (state : MigrationState) :
    MigrationState :=
  let response := llm (mapping_prompt state)
  { state with component_map := decode_structured response (Json.obj []) }

/-- generate_constraints stage: same clean/parse/degrade policy with the
empty-list fallback, writing constraints. -/
def generate_constraints (llm : String → String) (state : MigrationState) :
    MigrationState :=
  let response := llm (constraints_prompt state)
  { state with constraints := decode_structured response (Json.arr []) }

/-- generate_plan stage: same policy, writing migration_plan. -/
def generate_plan (llm : String → String) (state : MigrationState) :
    MigrationState :=
  let response := llm (plan_prompt state)
  { state with migration_plan := decode_structured response (Json.arr []) }

/-- generate_verification_rules stage: same policy, writing
verification_rules. -/
def generate_verification_rules (llm : String → String)
    (state : MigrationState) : MigrationState :=
  let response := llm (rules_prompt state)
  { state with verification_rules := decode_structured response (Json.arr []) }

/-- Content before the earliest closing fence ``` in the remainder, if
one occurs (the lazy group (.*?) of the migrate_code regex). -/
def findCloseFence : List Char → Option (List Char)
  | [] => none
  | c :: cs =>
    if "```".data.isPrefixOf (c :: cs) then some []
    else (findCloseFence cs).map (fun content => c :: content)

/-- Length of an opening fence match at cs for ```(?:html)?\n, trying the
html alternative first as the greedy engine does; the two alternatives
can never match at the same position. -/
def fenceOpenLen (cs : List Char) : Option Nat :=
  if "```html\n".data.isPrefixOf cs then some 8
  else if "```\n".data.isPrefixOf cs then some 4
  else none

/-- First match of re.search(r"```(?:html)?\n(.*?)```", response,
re.DOTALL): the leftmost opening fence that is followed by a closing
fence, returning the group between them. -/
def findFencedBlock : List Char → Option String
  | [] => none
  | c :: cs =>
    (match fenceOpenLen (c :: cs) with
     | some n =>
       (match findCloseFence ((c :: cs).drop n) with
        | some content => some (String.mk content)
        | none => findFencedBlock cs)
     | none => findFencedBlock cs)

/-- Prompt of the migrate_code stage. -/
def migrate_prompt (state : MigrationState) (original_code : String) : String :=
  "Migrate the following code from Modus 1.0 to Modus 2.0.\nContext:\nV1 Components: "
    ++ dumps (Json.obj state.v1_components)
    ++ "\nV2 Components: " ++ dumps (Json.obj state.v2_components)
    ++ "\nMapping: " ++ dumps state.component_map
    ++ "\nConstraints: " ++ dumps state.constraints
    ++ "\nPlan: " ++ dumps state.migration_plan
    ++ "\nOriginal Code:\n```\n" ++ original_code ++ "\n```\n"

/-- migrate_code stage (defined but not wired into the default chain):
requires a truthy current_file with truthy code in modified_code, prompts
the model, extracts the first fenced block (or falls back to the stripped
response), and writes the result back into modified_code. -/
def migrate_code (llm : String → String) (state : MigrationState) :
    MigrationState :=
  match state.current_file with
  | none => state
  | some f =>
    if f = "" then state
    else
      match alookup state.modified_code f with
      | none => state
      | some original_code =>
        if original_code = "" then state
        else
          let response := llm (migrate_prompt state original_code)
          let migrated :=
            match findFencedBlock response.data with
            | some block => stripWs block
            | none => stripWs response
          { state with modified_code := dinsert state.modified_code f migrated }

/-- Prompt of the verify_migration stage. -/
def verify_prompt (state : MigrationState) (migrated_code : String) : String :=
  "Verify the following migrated code against the verification rules.\nMigrated Code:\n```\n"
    ++ migrated_code ++ "\n```\nVerification Rules:\n"
    ++ dumps state.verification_rules ++ "\nReturn ONLY the JSON list."

/-- verify_migration stage (defined but not wired): requires a truthy
current_file with truthy migrated code, prompts the model and on a
successful parse replaces verification_rules with the parsed results; on
parse failure the except branch keeps the original rules, which is the
decode with the pre-call value as default. -/
def verify_migration (llm : String → String) (state : MigrationState) :
    MigrationState :=
  match state.current_file with
  | none => state
  | some f =>
    if f = "" then state
    else
      match alookup state.modified_code f with
      | none => state
      | some migrated_code =>
        if migrated_code = "" then state
        else
          let response := llm (verify_prompt state migrated_code)
          { state with
            verification_rules :=
              decode_structured response state.verification_rules }

/-- The compiled default workflow of build_workflow: the strictly linear
wired chain load_context → analyze_components → generate_mapping →
generate_constraints → generate_plan → generate_verification_rules
(migrate_code and verify_migration are commented out of the graph). -/
def run_workflow (session : List ContextUnit) (llm : String → String)
    (state : MigrationState) : MigrationState :=
  generate_verification_rules llm
    (generate_plan llm
      (generate_constraints llm
        (generate_mapping llm
          (analyze_components
            (load_context session state)))))

/-!
Concrete fixtures used by counterexamples and witnesses.
-/

/-- A chunk whose sourceKey is built from the literal string "NotFound",
possible whenever a v2 component file is actually named that way. -/
def cexSneakDoc : Doc := ⟨"SNEAK", "v2_component:NotFound"⟩

/-- An index whose broad search returns nothing and whose full scan
returns the NotFound-keyed chunk. -/
def cexDb1 : VectorDB :=
  ⟨[cexSneakDoc], fun q _ => if q = "" then [cexSneakDoc] else []⟩

/-- A mapping state carrying the spec spelling of the sentinel, without
the space the code actually tests for. -/
def cexState1 : RetrievalState := ⟨[("modus-alert.tsx", "NotFound")]⟩

/-- A mapped v2 chunk returned among the broad candidates. -/
def cexNearDoc : Doc := ⟨"NEAR", "v2_component:modus-wc-alert.tsx"⟩

/-- A second chunk with the same sourceKey, present in the index but
missing from the broad candidates. -/
def cexFarDoc : Doc := ⟨"FAR", "v2_component:modus-wc-alert.tsx"⟩

/-- An index where one exact-source chunk is a broad candidate and the
other is reachable only by the full scan. -/
def cexDb2 : VectorDB :=
  ⟨[cexNearDoc, cexFarDoc],
    fun q _ => if q = "" then [cexNearDoc, cexFarDoc] else [cexNearDoc]⟩

/-- The ordinary mapped state for the modus-alert component. -/
def cexState2 : RetrievalState := ⟨[("modus-alert.tsx", "modus-wc-alert.tsx")]⟩

/-- A mapped v2 chunk reachable only through the fallback full scan. -/
def cexFbDoc : Doc := ⟨"V2DOC", "v2_component:modus-wc-alert.tsx"⟩

/-- An index whose broad search misses the mapped chunk entirely. -/
def cexDb3 : VectorDB :=
  ⟨[cexFbDoc], fun q _ => if q = "" then [cexFbDoc] else []⟩

/-- The default-constructed MigrationState, as pydantic builds it from
the field defaults. -/
def emptyState : MigrationState :=
  ⟨[], [], Json.obj [], Json.arr [], Json.arr [], Json.arr [], none, [],
    "PENDING"⟩

/-- A state carrying migrated code for f.html and one old rule. -/
def s5 : MigrationState :=
  ⟨[], [], Json.obj [], Json.arr [], Json.arr [], Json.arr [Json.str "old rule"],
    some "f.html", [("f.html", "<div>")], "PENDING"⟩

/-- A metadata store holding a single constraints row. -/
def cexSession3 : List ContextUnit := [⟨"constraints", "c", "[1]"⟩]

/-- A model that answers every prompt with a parsable constraint list. -/
def llm3 : String → String := fun _ => "[2]"

/-- A model whose every answer fails to parse even after cleaning. -/
def llm9 : String → String := fun _ => "oops"

/-- A state with one documented v1 component. -/
def s4 : MigrationState :=
  { emptyState with
    v1_components :=
      [("modus-alert.tsx", Json.obj [("documentation", Json.str "color: a props line")])] }

/-- The property extractor as claim C4 words it: any line containing a
colon and the token "prop" or "property" (case-insensitive) contributes
the text before the colon, deduplicated.  Written from the claim text,
for comparison against the extractor the code implements. -/
def extract_props_claimed (doc : String) : List String :=
  (splitLines doc).foldl
    (fun props line =>
      if containsChar line ':' &&
          (containsSub (toLowerS line) "prop" || containsSub (toLowerS line) "property") then
        insertNew props (beforeColon line)
      else props)
    []

/-- The characters that clean_response can remove from either end of a
response: the character set of "```json\n" together with the whitespace
stripped by the final bare strip(). -/
def fenceStripChars : List Char := "```json\n".data ++ pyWhitespace

/-!
Supporting lemmas.
-/

/-- The per-tag bucket accumulation of retrieve_context_by_section is the
pair of per-bucket flat maps. -/
theorem buckets_foldl (db : VectorDB) (all_results : List Doc)
    (mapping : List (String × String)) (k_pick : Nat) :
    ∀ (ts : List String) (a b : List String),
      ts.foldl
        (fun (acc : List String × List String) tag =>
          (acc.1 ++ v1_hits_for_tag all_results tag k_pick,
           acc.2 ++ v2_hits_for_tag db all_results mapping tag k_pick))
        (a, b) =
      (a ++ ts.flatMap (fun tag => v1_hits_for_tag all_results tag k_pick),
       b ++ ts.flatMap (fun tag => v2_hits_for_tag db all_results mapping tag k_pick)) := by
  intro ts
  induction ts with
  | nil => intro a b; simp
  | cons t ts ih =>
    intro a b
    simp only [List.foldl_cons, ih, List.flatMap_cons, List.append_assoc]

/-- Closed two-block form of retrieve_context_by_section. -/
theorem retrieve_blocks (db : VectorDB) (code : String) (k_search k_pick : Nat)
    (state : Option RetrievalState) :
    retrieve_context_by_section db code k_search k_pick state =
      ("### V1 COMPONENT\n"
          ++ joinSep "\n\n" (orPlaceholder (v1_bucket db code k_search k_pick)))
        ++ "\n\n"
        ++ ("### V2 COMPONENT\n"
          ++ joinSep "\n\n" (orPlaceholder (v2_bucket db code k_search k_pick state))) := by
  cases state with
  | none =>
    simp only [retrieve_context_by_section]
    rw [buckets_foldl]
    rfl
  | some st =>
    simp only [retrieve_context_by_section]
    rw [buckets_foldl]
    rfl

/-- The v2 branch contributes nothing under an empty mapping dict. -/
theorem v2_hits_empty_mapping (db : VectorDB) (all_results : List Doc)
    (tag : String) (k_pick : Nat) :
    v2_hits_for_tag db all_results [] tag k_pick = [] := rfl

/-- generate_mapping is a single-field update of component_map. -/
theorem generate_mapping_shape (llm : String → String) (s : MigrationState) :
    generate_mapping llm s =
      { s with component_map :=
          decode_structured (llm (mapping_prompt s)) (Json.obj []) } := rfl

/-- generate_constraints is a single-field update of constraints. -/
theorem generate_constraints_shape (llm : String → String) (s : MigrationState) :
    generate_constraints llm s =
      { s with constraints :=
          decode_structured (llm (constraints_prompt s)) (Json.arr []) } := rfl

/-- generate_plan is a single-field update of migration_plan. -/
theorem generate_plan_shape (llm : String → String) (s : MigrationState) :
    generate_plan llm s =
      { s with migration_plan :=
          decode_structured (llm (plan_prompt s)) (Json.arr []) } := rfl

/-- generate_verification_rules is a single-field update of
verification_rules. -/
theorem generate_verification_rules_shape (llm : String → String)
    (s : MigrationState) :
    generate_verification_rules llm s =
      { s with verification_rules :=
          decode_structured (llm (rules_prompt s)) (Json.arr []) } := rfl

/-- analyze_components updates only the two component maps. -/
theorem analyze_components_shape (s : MigrationState) :
    analyze_components s =
      { s with
        v1_components := s.v1_components.map (fun nc => (nc.1, update_props nc.2)),
        v2_components := s.v2_components.map (fun nc => (nc.1, update_props nc.2)) } := rfl

/-- load_context updates only the five loaded fields. -/
theorem load_context_shape (session : List ContextUnit) (s : MigrationState) :
    ∃ v1 v2 mp vr cs, load_context session s =
      { s with
        v1_components := v1,
        v2_components := v2,
        migration_plan := mp,
        verification_rules := vr,
        constraints := cs } := by
  simp only [load_context]
  split
  · exact ⟨_, _, _, _, s.constraints, rfl⟩
  · split
    · split
      · exact ⟨_, _, _, _, _, rfl⟩
      · exact ⟨_, _, _, _, _, rfl⟩
    · exact ⟨_, _, _, _, _, rfl⟩

/-- migrate_code updates (at most) modified_code. -/
theorem migrate_code_shape (llm : String → String) (s : MigrationState) :
    ∃ mc, migrate_code llm s = { s with modified_code := mc } := by
  unfold migrate_code
  split
  · exact ⟨s.modified_code, rfl⟩
  · split
    · exact ⟨s.modified_code, rfl⟩
    · split
      · exact ⟨s.modified_code, rfl⟩
      · split
        · exact ⟨s.modified_code, rfl⟩
        · exact ⟨_, rfl⟩

/-- verify_migration updates (at most) verification_rules. -/
theorem verify_migration_shape (llm : String → String) (s : MigrationState) :
    ∃ vr, verify_migration llm s = { s with verification_rules := vr } := by
  unfold verify_migration
  split
  · exact ⟨s.verification_rules, rfl⟩
  · split
    · exact ⟨s.verification_rules, rfl⟩
    · split
      · exact ⟨s.verification_rules, rfl⟩
      · split
        · exact ⟨s.verification_rules, rfl⟩
        · exact ⟨_, rfl⟩

/-!
Claim theorems.
-/

/-- C7: for every query, mapping state and index, retrieveBySection
returns exactly two text blocks with the fixed uppercase headers
"V1 COMPONENT" and "V2 COMPONENT", each block joining its bucket with
blank lines, an empty bucket rendering the single placeholder token
"<no content>", and the blocks concatenated v1-then-v2 with a blank-line
separator. -/
theorem C7_theorem (db : VectorDB) (code : String) (k_search k_pick : Nat)
    (state : Option RetrievalState) :
    retrieve_context_by_section db code k_search k_pick state =
      ("### V1 COMPONENT\n"
          ++ joinSep "\n\n" (orPlaceholder (v1_bucket db code k_search k_pick)))
        ++ "\n\n"
        ++ ("### V2 COMPONENT\n"
          ++ joinSep "\n\n" (orPlaceholder (v2_bucket db code k_search k_pick state))) :=
  retrieve_blocks db code k_search k_pick state

/-- C10: calling retrieveBySection with no mapping state at all behaves
exactly as with an empty component map: the v2 branch is skipped for
every extracted tag, the v2 bucket is empty and renders the placeholder
token, and the v1 branch still filters the broad candidate set.  The
model is total, matching the source, where state=None is guarded by the
conditional expression before any attribute access. -/
theorem C10_theorem (db : VectorDB) (code : String) (k_search k_pick : Nat) :
    retrieve_context_by_section db code k_search k_pick none =
        retrieve_context_by_section db code k_search k_pick
          (some (RetrievalState.mk [])) ∧
      v2_bucket db code k_search k_pick none = [] ∧
      retrieve_context_by_section db code k_search k_pick none =
        ("### V1 COMPONENT\n"
            ++ joinSep "\n\n" (orPlaceholder (v1_bucket db code k_search k_pick)))
          ++ "\n\n" ++ "### V2 COMPONENT\n<no content>" := by
  have hv2 : v2_bucket db code k_search k_pick none = [] := by
    unfold v2_bucket
    simp [v2_hits_empty_mapping, mappingOf]
  refine ⟨rfl, hv2, ?_⟩
  rw [retrieve_blocks, hv2]
  rfl

/-- C1 counterexample: the sentinel the code tests for is "Not Found"
with a space, so a componentMap value equal to the claimed sentinel
"NotFound" does not skip the v2 branch: with an index chunk whose
sourceKey is "v2_component:NotFound", the tag contributes that chunk to
the v2 bucket and the output differs from the absent-entry output. -/
theorem C1_counterexample :
    alookup cexState1.Mapping_v1_v2 "modus-alert.tsx" = some "NotFound" ∧
      v2_bucket cexDb1 "<modus-alert>" 30 10 (some cexState1) = ["SNEAK"] ∧
      v2_bucket cexDb1 "<modus-alert>" 30 10 (some (RetrievalState.mk [])) = [] ∧
      retrieve_context_by_section cexDb1 "<modus-alert>" 30 10 (some cexState1) ≠
        retrieve_context_by_section cexDb1 "<modus-alert>" 30 10
          (some (RetrievalState.mk [])) := by
  refine ⟨rfl, rfl, rfl, ?_⟩
  decide

/-- C1 (amended): a tag whose componentMap value is the sentinel
"Not Found" — the exact spelling the code compares against — contributes
nothing to the v2 bucket: its v2 branch yields no hits, exactly as when
the mapping entry is absent. -/
theorem C1_theorem (db : VectorDB) (all_results : List Doc)
    (mapping : List (String × String)) (tag : String) (k_pick : Nat)
    (h : alookup mapping (tag ++ ".tsx") = none ∨
      alookup mapping (tag ++ ".tsx") = some "Not Found") :
    v2_hits_for_tag db all_results mapping tag k_pick = [] := by
  simp only [v2_hits_for_tag]
  rcases h with h | h <;> simp [h]

/-- C1 witness: the amended theorem applied at a concrete sentinel
mapping. -/
theorem C1_witness :
    (alookup [("modus-a.tsx", "Not Found")] ("modus-a" ++ ".tsx") = none ∨
      alookup [("modus-a.tsx", "Not Found")] ("modus-a" ++ ".tsx") =
        some "Not Found") ∧
    v2_hits_for_tag cexDb1 [] [("modus-a.tsx", "Not Found")] "modus-a" 10 = [] :=
  ⟨Or.inr rfl,
    C1_theorem cexDb1 [] [("modus-a.tsx", "Not Found")] "modus-a" 10 (Or.inr rfl)⟩

/-- C2 counterexample: a chunk with the exact mapped sourceKey that sits
in the index but outside the top-kSearch candidates is NOT guaranteed to
reach the v2 bucket: when another chunk with the same sourceKey is among
the broad candidates, the fallback full scan never runs and the
out-of-candidates chunk is lost. -/
theorem C2_counterexample :
    cexFarDoc ∈ cexDb2.docs ∧
      cexFarDoc.source = "v2_component:" ++ "modus-wc-alert.tsx" ∧
      alookup cexState2.Mapping_v1_v2 ("modus-alert" ++ ".tsx") =
        some "modus-wc-alert.tsx" ∧
      "modus-alert" ∈ dedupKeepFirst (findModusTags "<modus-alert>".data) ∧
      cexFarDoc ∉ cexDb2.similarity_search "<modus-alert>" 30 ∧
      cexFarDoc.page_content ∉
        v2_bucket cexDb2 "<modus-alert>" 30 10 (some cexState2) := by
  decide

/-- C2 (amended): when a tag has a mapped v2 file (entry present, not the
sentinel), NO broad candidate carries the exact sourceKey, and the chunk
is within the first kPick exact-sourceKey matches of the bounded
full-index scan query("", 1000), then that chunk's text appears in the v2
bucket of retrieveBySection even though it is absent from the
top-kSearch candidates. -/
theorem C2_theorem (db : VectorDB) (code : String) (k_search k_pick : Nat)
    (state : Option RetrievalState) (tag v2_file : String) (d : Doc)
    (htag : tag ∈ dedupKeepFirst (findModusTags code.data))
    (hlook : alookup (mappingOf state) (tag ++ ".tsx") = some v2_file)
    (hne1 : v2_file ≠ "")
    (hne2 : v2_file ≠ "Not Found")
    (hmiss : ∀ d2 ∈ db.similarity_search code k_search,
      d2.source ≠ "v2_component:" ++ v2_file)
    (hd : d ∈ ((db.similarity_search "" 1000).filter
        (fun d2 => d2.source = "v2_component:" ++ v2_file)).take k_pick) :
    d.page_content ∈ v2_bucket db code k_search k_pick state := by
  unfold v2_bucket
  rw [List.mem_flatMap]
  refine ⟨tag, htag, ?_⟩
  simp only [v2_hits_for_tag, hlook]
  have hfilter : (db.similarity_search code k_search).filter
      (fun d2 => d2.source = "v2_component:" ++ v2_file) = [] := by
    rw [List.filter_eq_nil_iff]
    intro a ha
    simpa using hmiss a ha
  rw [if_pos ⟨hne1, hne2⟩, hfilter]
  simp only [List.isEmpty_nil, if_true]
  exact List.mem_map.mpr ⟨d, hd, rfl⟩

/-- C2 witness: the amended theorem applied at a concrete index where the
mapped chunk is reachable only through the fallback scan. -/
theorem C2_witness :
    ("modus-alert" ∈ dedupKeepFirst (findModusTags "<modus-alert>".data)) ∧
      alookup (mappingOf (some cexState2)) ("modus-alert" ++ ".tsx") =
        some "modus-wc-alert.tsx" ∧
      (∀ d2 ∈ cexDb3.similarity_search "<modus-alert>" 30,
        d2.source ≠ "v2_component:" ++ "modus-wc-alert.tsx") ∧
      cexFbDoc ∈ ((cexDb3.similarity_search "" 1000).filter
        (fun d2 => d2.source = "v2_component:" ++ "modus-wc-alert.tsx")).take 10 ∧
      cexFbDoc.page_content ∈
        v2_bucket cexDb3 "<modus-alert>" 30 10 (some cexState2) := by
  refine ⟨by decide, rfl, by decide, by decide, ?_⟩
  exact C2_theorem cexDb3 "<modus-alert>" 30 10 (some cexState2) "modus-alert"
    "modus-wc-alert.tsx" cexFbDoc (by decide) rfl (by decide) (by decide)
    (by decide) (by decide)

/-- C5: for every pre-call state with migrated code present, when the
model output of VerifyMigration fails to parse as JSON the resulting
verificationRules equal the pre-call value exactly (the except branch
keeps the old rules). -/
theorem C5_theorem (llm : String → String) (s : MigrationState)
    (f code_c : String)
    (hf : s.current_file = some f) (hf2 : f ≠ "")
    (hc : alookup s.modified_code f = some code_c) (hc2 : code_c ≠ "")
    (hparse : parseJson (clean_response (llm (verify_prompt s code_c))) = none) :
    (verify_migration llm s).verification_rules = s.verification_rules := by
  simp only [verify_migration, hf, hc]
  rw [if_neg hf2, if_neg hc2]
  simp only [decode_structured, hparse]

/-- C5 witness: the keep-old-on-failure law applied at a concrete state
with migrated code and a model that answers non-JSON text. -/
theorem C5_witness :
    s5.current_file = some "f.html" ∧
      ("f.html" : String) ≠ "" ∧
      alookup s5.modified_code "f.html" = some "<div>" ∧
      ("<div>" : String) ≠ "" ∧
      parseJson (clean_response
        ((fun _ => "not json") (verify_prompt s5 "<div>"))) = none ∧
      (verify_migration (fun _ => "not json") s5).verification_rules =
        s5.verification_rules :=
  ⟨rfl, by decide, rfl, by decide, rfl,
    C5_theorem (fun _ => "not json") s5 "f.html" "<div>" rfl (by decide) rfl
      (by decide) rfl⟩

/-- C6: when GenerateMapping's model response is unparsable even after
fence cleaning, componentMap is the empty dict afterwards, and the wired
chain still passes the resulting state to GenerateConstraints as the next
stage (the model is total: the parse exception is caught inside the
stage). -/
theorem C6_theorem (session : List ContextUnit) (llm : String → String)
    (s : MigrationState)
    (hparse : parseJson (clean_response
      (llm (mapping_prompt (analyze_components (load_context session s))))) = none) :
    (generate_mapping llm (analyze_components (load_context session s))).component_map =
        Json.obj [] ∧
      run_workflow session llm s =
        generate_verification_rules llm
          (generate_plan llm
            (generate_constraints llm
              (generate_mapping llm (analyze_components (load_context session s))))) := by
  constructor
  · simp only [generate_mapping, decode_structured, hparse]
  · rfl

/-- C6 witness: the degrade-to-empty-map law applied at the empty store
and a model that always answers non-JSON text. -/
theorem C6_witness :
    parseJson (clean_response
        (llm9 (mapping_prompt (analyze_components (load_context [] emptyState))))) =
        none ∧
      (generate_mapping llm9
          (analyze_components (load_context [] emptyState))).component_map =
        Json.obj [] ∧
      run_workflow [] llm9 emptyState =
        generate_verification_rules llm9
          (generate_plan llm9
            (generate_constraints llm9
              (generate_mapping llm9
                (analyze_components (load_context [] emptyState))))) :=
  ⟨rfl,
    (C6_theorem [] llm9 emptyState rfl).1,
    (C6_theorem [] llm9 emptyState rfl).2⟩

/-- C9: on a JSON parse failure, each of the four Generate* stages
returns every PipelineState field other than its own output field exactly
equal to its pre-call value: the degrade-to-default path modifies only
the stage's own field. -/
theorem C9_theorem (llm : String → String) (s : MigrationState) :
    (parseJson (clean_response (llm (mapping_prompt s))) = none →
      (generate_mapping llm s).v1_components = s.v1_components ∧
      (generate_mapping llm s).v2_components = s.v2_components ∧
      (generate_mapping llm s).constraints = s.constraints ∧
      (generate_mapping llm s).migration_plan = s.migration_plan ∧
      (generate_mapping llm s).verification_rules = s.verification_rules ∧
      (generate_mapping llm s).current_file = s.current_file ∧
      (generate_mapping llm s).modified_code = s.modified_code ∧
      (generate_mapping llm s).action = s.action) ∧
    (parseJson (clean_response (llm (constraints_prompt s))) = none →
      (generate_constraints llm s).v1_components = s.v1_components ∧
      (generate_constraints llm s).v2_components = s.v2_components ∧
      (generate_constraints llm s).component_map = s.component_map ∧
      (generate_constraints llm s).migration_plan = s.migration_plan ∧
      (generate_constraints llm s).verification_rules = s.verification_rules ∧
      (generate_constraints llm s).current_file = s.current_file ∧
      (generate_constraints llm s).modified_code = s.modified_code ∧
      (generate_constraints llm s).action = s.action) ∧
    (parseJson (clean_response (llm (plan_prompt s))) = none →
      (generate_plan llm s).v1_components = s.v1_components ∧
      (generate_plan llm s).v2_components = s.v2_components ∧
      (generate_plan llm s).component_map = s.component_map ∧
      (generate_plan llm s).constraints = s.constraints ∧
      (generate_plan llm s).verification_rules = s.verification_rules ∧
      (generate_plan llm s).current_file = s.current_file ∧
      (generate_plan llm s).modified_code = s.modified_code ∧
      (generate_plan llm s).action = s.action) ∧
    (parseJson (clean_response (llm (rules_prompt s))) = none →
      (generate_verification_rules llm s).v1_components = s.v1_components ∧
      (generate_verification_rules llm s).v2_components = s.v2_components ∧
      (generate_verification_rules llm s).component_map = s.component_map ∧
      (generate_verification_rules llm s).constraints = s.constraints ∧
      (generate_verification_rules llm s).migration_plan = s.migration_plan ∧
      (generate_verification_rules llm s).current_file = s.current_file ∧
      (generate_verification_rules llm s).modified_code = s.modified_code ∧
      (generate_verification_rules llm s).action = s.action) := by
  rw [generate_mapping_shape, generate_constraints_shape, generate_plan_shape,
    generate_verification_rules_shape]
  refine ⟨fun _ => ?_, fun _ => ?_, fun _ => ?_, fun _ => ?_⟩
  · exact ⟨rfl, rfl, rfl, rfl, rfl, rfl, rfl, rfl⟩
  · exact ⟨rfl, rfl, rfl, rfl, rfl, rfl, rfl, rfl⟩
  · exact ⟨rfl, rfl, rfl, rfl, rfl, rfl, rfl, rfl⟩
  · exact ⟨rfl, rfl, rfl, rfl, rfl, rfl, rfl, rfl⟩

/-- C3 counterexample: two distinct wired stages mutate the same
PipelineState field.  With one constraints row in the metadata store,
LoadContext rewrites constraints; with a parsable model answer,
GenerateConstraints rewrites constraints as well — so constraints is not
written by exactly one stage (and the same holds for migrationPlan and
verificationRules, both loaded by LoadContext and regenerated later). -/
theorem C3_counterexample :
    (load_context cexSession3 emptyState).constraints ≠ emptyState.constraints ∧
      (generate_constraints llm3 emptyState).constraints ≠ emptyState.constraints := by
  constructor
  · rw [show (load_context cexSession3 emptyState).constraints =
        Json.arr [Json.arr [Json.num 1]] from rfl]
    simp [emptyState]
  · rw [show (generate_constraints llm3 emptyState).constraints =
        Json.arr [Json.num 2] from rfl]
    simp [emptyState]

/-- C3 (amended): each stage writes only its designated fields —
LoadContext writes the five loaded fields (v1Components, v2Components,
constraints, migrationPlan, verificationRules), AnalyzeComponents
rewrites the two component maps, each Generate* stage writes exactly its
own output field, MigrateCode writes only modifiedCode and
VerifyMigration only verificationRules.  Hence componentMap and
modifiedCode have a single writing stage, while the five loaded fields
are each written by two or three stages, so the one-writer-per-field rule
holds only among the model-driven stages. -/
theorem C3_theorem :
    (∀ (session : List ContextUnit) (s : MigrationState),
      (load_context session s).component_map = s.component_map ∧
      (load_context session s).current_file = s.current_file ∧
      (load_context session s).modified_code = s.modified_code ∧
      (load_context session s).action = s.action) ∧
    (∀ s : MigrationState,
      (analyze_components s).component_map = s.component_map ∧
      (analyze_components s).constraints = s.constraints ∧
      (analyze_components s).migration_plan = s.migration_plan ∧
      (analyze_components s).verification_rules = s.verification_rules ∧
      (analyze_components s).current_file = s.current_file ∧
      (analyze_components s).modified_code = s.modified_code ∧
      (analyze_components s).action = s.action) ∧
    (∀ (llm : String → String) (s : MigrationState),
      (generate_mapping llm s).v1_components = s.v1_components ∧
      (generate_mapping llm s).v2_components = s.v2_components ∧
      (generate_mapping llm s).constraints = s.constraints ∧
      (generate_mapping llm s).migration_plan = s.migration_plan ∧
      (generate_mapping llm s).verification_rules = s.verification_rules ∧
      (generate_mapping llm s).current_file = s.current_file ∧
      (generate_mapping llm s).modified_code = s.modified_code ∧
      (generate_mapping llm s).action = s.action) ∧
    (∀ (llm : String → String) (s : MigrationState),
      (generate_constraints llm s).v1_components = s.v1_components ∧
      (generate_constraints llm s).v2_components = s.v2_components ∧
      (generate_constraints llm s).component_map = s.component_map ∧
      (generate_constraints llm s).migration_plan = s.migration_plan ∧
      (generate_constraints llm s).verification_rules = s.verification_rules ∧
      (generate_constraints llm s).current_file = s.current_file ∧
      (generate_constraints llm s).modified_code = s.modified_code ∧
      (generate_constraints llm s).action = s.action) ∧
    (∀ (llm : String → String) (s : MigrationState),
      (generate_plan llm s).v1_components = s.v1_components ∧
      (generate_plan llm s).v2_components = s.v2_components ∧
      (generate_plan llm s).component_map = s.component_map ∧
      (generate_plan llm s).constraints = s.constraints ∧
      (generate_plan llm s).verification_rules = s.verification_rules ∧
      (generate_plan llm s).current_file = s.current_file ∧
      (generate_plan llm s).modified_code = s.modified_code ∧
      (generate_plan llm s).action = s.action) ∧
    (∀ (llm : String → String) (s : MigrationState),
      (generate_verification_rules llm s).v1_components = s.v1_components ∧
      (generate_verification_rules llm s).v2_components = s.v2_components ∧
      (generate_verification_rules llm s).component_map = s.component_map ∧
      (generate_verification_rules llm s).constraints = s.constraints ∧
      (generate_verification_rules llm s).migration_plan = s.migration_plan ∧
      (generate_verification_rules llm s).current_file = s.current_file ∧
      (generate_verification_rules llm s).modified_code = s.modified_code ∧
      (generate_verification_rules llm s).action = s.action) ∧
    (∀ (llm : String → String) (s : MigrationState),
      (migrate_code llm s).v1_components = s.v1_components ∧
      (migrate_code llm s).v2_components = s.v2_components ∧
      (migrate_code llm s).component_map = s.component_map ∧
      (migrate_code llm s).constraints = s.constraints ∧
      (migrate_code llm s).migration_plan = s.migration_plan ∧
      (migrate_code llm s).verification_rules = s.verification_rules ∧
      (migrate_code llm s).current_file = s.current_file ∧
      (migrate_code llm s).action = s.action) ∧
    (∀ (llm : String → String) (s : MigrationState),
      (verify_migration llm s).v1_components = s.v1_components ∧
      (verify_migration llm s).v2_components = s.v2_components ∧
      (verify_migration llm s).component_map = s.component_map ∧
      (verify_migration llm s).constraints = s.constraints ∧
      (verify_migration llm s).migration_plan = s.migration_plan ∧
      (verify_migration llm s).current_file = s.current_file ∧
      (verify_migration llm s).modified_code = s.modified_code ∧
      (verify_migration llm s).action = s.action) := by
  refine ⟨?_, ?_, ?_, ?_, ?_, ?_, ?_, ?_⟩
  · intro session s
    obtain ⟨v1, v2, mp, vr, cs, h⟩ := load_context_shape session s
    rw [h]
    exact ⟨rfl, rfl, rfl, rfl⟩
  · intro s
    rw [analyze_components_shape]
    exact ⟨rfl, rfl, rfl, rfl, rfl, rfl, rfl⟩
  · intro llm s
    rw [generate_mapping_shape]
    exact ⟨rfl, rfl, rfl, rfl, rfl, rfl, rfl, rfl⟩
  · intro llm s
    rw [generate_constraints_shape]
    exact ⟨rfl, rfl, rfl, rfl, rfl, rfl, rfl, rfl⟩
  · intro llm s
    rw [generate_plan_shape]
    exact ⟨rfl, rfl, rfl, rfl, rfl, rfl, rfl, rfl⟩
  · intro llm s
    rw [generate_verification_rules_shape]
    exact ⟨rfl, rfl, rfl, rfl, rfl, rfl, rfl, rfl⟩
  · intro llm s
    obtain ⟨mc, h⟩ := migrate_code_shape llm s
    rw [h]
    exact ⟨rfl, rfl, rfl, rfl, rfl, rfl, rfl, rfl⟩
  · intro llm s
    obtain ⟨vr, h⟩ := verify_migration_shape llm s
    rw [h]
    exact ⟨rfl, rfl, rfl, rfl, rfl, rfl, rfl, rfl⟩

/-- Membership in a set insertion. -/
theorem mem_insertNew {acc : List String} {q p : String} :
    p ∈ insertNew acc q ↔ p ∈ acc ∨ p = q := by
  unfold insertNew
  split
  · rename_i hcont
    constructor
    · exact Or.inl
    · rintro (h | rfl)
      · exact h
      · simpa using hcont
  · simp [List.mem_append]

/-- Set insertion preserves freedom from duplicates. -/
theorem nodup_insertNew {acc : List String} {q : String} (h : acc.Nodup) :
    (insertNew acc q).Nodup := by
  unfold insertNew
  split
  · exact h
  · rename_i hcont
    have hq : q ∉ acc := by simpa using hcont
    simp [List.nodup_append, h, hq]

/-- Membership in the property-collecting fold of extract_props. -/
theorem mem_props_foldl (p : String) (lines : List String) :
    ∀ acc : List String,
      (p ∈ lines.foldl
          (fun props line =>
            match line_prop line with
            | some q => insertNew props q
            | none => props)
          acc) ↔
        p ∈ acc ∨ ∃ line ∈ lines, line_prop line = some p := by
  induction lines with
  | nil => intro acc; simp
  | cons l ls ih =>
    intro acc
    rw [List.foldl_cons]
    cases hl : line_prop l with
    | none =>
      simp only [hl]
      rw [ih]
      simp [hl, List.mem_cons]
    | some q =>
      simp only [hl]
      rw [ih, mem_insertNew]
      simp only [List.mem_cons]
      constructor
      · rintro ((h | rfl) | ⟨line, hline, hp⟩)
        · exact Or.inl h
        · exact Or.inr ⟨l, Or.inl rfl, hl⟩
        · exact Or.inr ⟨line, Or.inr hline, hp⟩
      · rintro (h | ⟨line, (rfl | hline), hp⟩)
        · exact Or.inl (Or.inl h)
        · rw [hl] at hp
          exact Or.inl (Or.inr (Option.some.inj hp).symm)
        · exact Or.inr ⟨line, hline, hp⟩

/-- The property-collecting fold introduces no duplicates. -/
theorem nodup_props_foldl (lines : List String) :
    ∀ acc : List String, acc.Nodup →
      (lines.foldl
          (fun props line =>
            match line_prop line with
            | some q => insertNew props q
            | none => props)
          acc).Nodup := by
  induction lines with
  | nil => intro acc h; simpa using h
  | cons l ls ih =>
    intro acc h
    rw [List.foldl_cons]
    cases hl : line_prop l with
    | none => simp only [hl]; exact ih acc h
    | some q => simp only [hl]; exact ih _ (nodup_insertNew h)

/-- Characterization of the line filter of extract_props. -/
theorem line_prop_some_iff (line p : String) :
    line_prop line = some p ↔
      ((containsChar line ':' &&
          (containsSub (toLowerS line) "props" ||
            containsSub (toLowerS line) "property")) = true ∧
        (stripWs (beforeColon line) ≠ "" &&
          !(toLowerS (stripWs (beforeColon line)) = "props" ||
            toLowerS (stripWs (beforeColon line)) = "properties")) = true ∧
        p = stripWs (beforeColon line)) := by
  simp only [line_prop]
  split
  · rename_i h1
    split
    · rename_i h2
      simp only [h1, h2, true_and, Option.some.injEq]
      exact eq_comm
    · rename_i h2
      simp only [Bool.not_eq_true] at h2
      constructor
      · intro h
        exact Option.noConfusion h
      · rintro ⟨_, hcond, _⟩
        rw [h2] at hcond
        exact Bool.noConfusion hcond
  · rename_i h1
    simp only [Bool.not_eq_true] at h1
    constructor
    · intro h
      exact Option.noConfusion h
    · rintro ⟨hcond, _⟩
      rw [h1] at hcond
      exact Bool.noConfusion hcond

/-- C4 counterexample: the code filters lines on the token "props" (or
"property"), not on the claimed token "prop": a documentation line
containing a colon and the bare token "prop" is skipped by the code yet
extracted under the claim's wording. -/
theorem C4_counterexample :
    extract_props "myProp: a value" = [] ∧
      extract_props_claimed "myProp: a value" = ["myProp"] ∧
      containsChar "myProp: a value" ':' = true ∧
      containsSub (toLowerS "myProp: a value") "prop" = true :=
  ⟨rfl, rfl, rfl, rfl⟩

/-- C4 (amended): AnalyzeComponents is deterministic (a pure function of
the state, no model call); for each documentation it extracts, from each
line that contains a colon and the token "props" or "property"
(case-insensitive), the whitespace-trimmed text before the first colon —
provided that text is nonempty and not itself "props"/"properties" —
deduplicated as a set (membership characterization plus no-duplicates),
and it stores the per-component result in the component's props entry. -/
theorem C4_theorem :
    (∀ doc p, p ∈ extract_props doc ↔
      ∃ line ∈ splitLines doc,
        (containsChar line ':' &&
          (containsSub (toLowerS line) "props" ||
            containsSub (toLowerS line) "property")) = true ∧
        (stripWs (beforeColon line) ≠ "" &&
          !(toLowerS (stripWs (beforeColon line)) = "props" ||
            toLowerS (stripWs (beforeColon line)) = "properties")) = true ∧
        p = stripWs (beforeColon line)) ∧
    (∀ doc, (extract_props doc).Nodup) ∧
    (∀ (s : MigrationState) (nc : String × Json), nc ∈ s.v1_components →
      (nc.1, update_props nc.2) ∈ (analyze_components s).v1_components) ∧
    (∀ (s : MigrationState) (nc : String × Json), nc ∈ s.v2_components →
      (nc.1, update_props nc.2) ∈ (analyze_components s).v2_components) := by
  refine ⟨?_, ?_, ?_, ?_⟩
  · intro doc p
    by_cases hdoc : doc = ""
    · subst hdoc
      constructor
      · intro h
        rw [show extract_props "" = [] from rfl] at h
        exact absurd h (List.not_mem_nil p)
      · rintro ⟨line, hline, hcond, _⟩
        have hl : line = "" := by
          have hsp : splitLines "" = [""] := rfl
          rw [hsp] at hline
          simpa using hline
        subst hl
        exact absurd hcond (by decide)
    · rw [extract_props, if_neg hdoc, mem_props_foldl]
      simp only [List.not_mem_nil, false_or]
      constructor
      · rintro ⟨line, hline, hp⟩
        exact ⟨line, hline, (line_prop_some_iff line p).mp hp⟩
      · rintro ⟨line, hline, hp⟩
        exact ⟨line, hline, (line_prop_some_iff line p).mpr hp⟩
  · intro doc
    rw [extract_props]
    split
    · exact List.nodup_nil
    · exact nodup_props_foldl _ [] List.nodup_nil
  · intro s nc h
    rw [analyze_components_shape]
    exact List.mem_map_of_mem _ h
  · intro s nc h
    rw [analyze_components_shape]
    exact List.mem_map_of_mem _ h

/-- C4 witness: the storage law applied at a concrete documented
component. -/
theorem C4_witness :
    (("modus-alert.tsx",
        Json.obj [("documentation", Json.str "color: a props line")]) ∈
        s4.v1_components) ∧
      (("modus-alert.tsx",
          update_props (Json.obj [("documentation", Json.str "color: a props line")])) ∈
        (analyze_components s4).v1_components) :=
  ⟨List.mem_singleton_self _,
    C4_theorem.2.2.1 s4
      ("modus-alert.tsx", Json.obj [("documentation", Json.str "color: a props line")])
      (List.mem_singleton_self _)⟩

/-- Dropping-while leaves a list whose head fails the predicate
unchanged. -/
theorem dropWhile_of_head_false (p : Char → Bool) (cs : List Char)
    (h : ∀ c, cs.head? = some c → p c = false) : cs.dropWhile p = cs := by
  cases cs with
  | nil => rfl
  | cons c cs2 =>
    rw [List.dropWhile_cons, h c rfl]
    simp

/-- Dropping-while consumes a fully-satisfying leading block. -/
theorem dropWhile_append_of_all (p : Char → Bool) (xs ys : List Char)
    (h : ∀ x ∈ xs, p x = true) : (xs ++ ys).dropWhile p = ys.dropWhile p := by
  induction xs with
  | nil => rfl
  | cons x xs2 ih =>
    rw [List.cons_append, List.dropWhile_cons, h x (List.mem_cons_self x xs2),
      if_pos rfl]
    exact ih fun y hy => h y (List.mem_cons_of_mem x hy)

/-- Head of an append with a nonempty left part. -/
theorem head?_append_left {l l2 : List Char} (h : l ≠ []) :
    (l ++ l2).head? = l.head? := by
  cases l with
  | nil => exact absurd rfl h
  | cons a as => rfl

/-- Python str.strip(chars) is the identity when neither end character
belongs to the stripped set. -/
theorem stripChars_id (s bad : String)
    (hh : ∀ c, s.data.head? = some c → bad.data.contains c = false)
    (hl : ∀ c, s.data.getLast? = some c → bad.data.contains c = false) :
    stripChars s bad = s := by
  unfold stripChars
  rw [dropWhile_of_head_false _ _ hh]
  rw [dropWhile_of_head_false _ _ ?hrev]
  case hrev =>
    intro c hc
    rw [List.head?_reverse] at hc
    exact hl c hc
  rw [List.reverse_reverse]

/-- Python str.strip() is the identity when neither end character is
whitespace. -/
theorem stripWs_id (s : String)
    (hh : ∀ c, s.data.head? = some c → pyWhitespace.contains c = false)
    (hl : ∀ c, s.data.getLast? = some c → pyWhitespace.contains c = false) :
    stripWs s = s := by
  unfold stripWs
  rw [dropWhile_of_head_false _ _ hh]
  rw [dropWhile_of_head_false _ _ ?hrev]
  case hrev =>
    intro c hc
    rw [List.head?_reverse] at hc
    exact hl c hc
  rw [List.reverse_reverse]

/-- A character outside the full fence-strip set is outside the first
stripped set. -/
theorem fence_sub1 {c : Char} (h : fenceStripChars.contains c = false) :
    "```json\n".data.contains c = false := by
  have hm : c ∉ fenceStripChars := by simpa using h
  have h2 : c ∉ "```json\n".data := fun hc => hm (List.mem_append_left _ hc)
  simpa using h2

/-- A character outside the full fence-strip set is outside the backtick
set. -/
theorem fence_sub2 {c : Char} (h : fenceStripChars.contains c = false) :
    "```".data.contains c = false := by
  have hm : c ∉ fenceStripChars := by simpa using h
  have h2 : c ∉ "```".data := by
    intro hc
    have hc2 : c = '`' := by simpa using hc
    subst hc2
    exact hm (by decide)
  simpa using h2

/-- A character outside the full fence-strip set is not whitespace. -/
theorem fence_sub3 {c : Char} (h : fenceStripChars.contains c = false) :
    pyWhitespace.contains c = false := by
  have hm : c ∉ fenceStripChars := by simpa using h
  have h2 : c ∉ pyWhitespace := fun hc => hm (List.mem_append_right _ hc)
  simpa using h2

/-- The three-stage cleaning is the identity on a string whose end
characters avoid the fence-strip set and whitespace. -/
theorem clean_response_id (s : String)
    (hh : ∀ c, s.data.head? = some c → fenceStripChars.contains c = false)
    (hl : ∀ c, s.data.getLast? = some c → fenceStripChars.contains c = false) :
    clean_response s = s := by
  unfold clean_response
  rw [stripChars_id s _ (fun c hc => fence_sub1 (hh c hc))
      (fun c hc => fence_sub1 (hl c hc))]
  rw [stripChars_id s _ (fun c hc => fence_sub2 (hh c hc))
      (fun c hc => fence_sub2 (hl c hc))]
  exact stripWs_id s (fun c hc => fence_sub3 (hh c hc))
    (fun c hc => fence_sub3 (hl c hc))

/-- The first strip removes exactly a wrapping code fence around a
payload whose end characters avoid the stripped set. -/
theorem stripChars_fence (s : String) (hs : s.data ≠ [])
    (hh : ∀ c, s.data.head? = some c → "```json\n".data.contains c = false)
    (hl : ∀ c, s.data.getLast? = some c → "```json\n".data.contains c = false) :
    stripChars ("```json\n" ++ s ++ "\n```") "```json\n" = s := by
  have hdata : ("```json\n" ++ s ++ "\n```").data =
      "```json\n".data ++ (s.data ++ "\n```".data) := by
    rw [String.data_append, String.data_append, List.append_assoc]
  have h1 : List.dropWhile (fun c => "```json\n".data.contains c)
      ("```json\n".data ++ (s.data ++ "\n```".data)) =
      List.dropWhile (fun c => "```json\n".data.contains c)
        (s.data ++ "\n```".data) :=
    dropWhile_append_of_all _ _ _ (by decide)
  have h2 : List.dropWhile (fun c => "```json\n".data.contains c)
      (s.data ++ "\n```".data) = s.data ++ "\n```".data :=
    dropWhile_of_head_false _ _
      (fun c hc => hh c (by rwa [head?_append_left hs] at hc))
  have h3 : (s.data ++ "\n```".data).reverse =
      ['`', '`', '`', '\n'] ++ s.data.reverse := by
    rw [List.reverse_append]
    rfl
  have h4 : List.dropWhile (fun c => "```json\n".data.contains c)
      (['`', '`', '`', '\n'] ++ s.data.reverse) =
      List.dropWhile (fun c => "```json\n".data.contains c) s.data.reverse :=
    dropWhile_append_of_all _ _ _ (by decide)
  have h5 : List.dropWhile (fun c => "```json\n".data.contains c) s.data.reverse
      = s.data.reverse :=
    dropWhile_of_head_false _ _
      (fun c hc => hl c (by rwa [List.head?_reverse] at hc))
  unfold stripChars
  rw [hdata, h1, h2, h3, h4, h5, List.reverse_reverse]

/-- The three-stage cleaning removes exactly a wrapping ```json fence
around such a payload. -/
theorem clean_response_fenced (s : String) (hs : s.data ≠ [])
    (hh : ∀ c, s.data.head? = some c → fenceStripChars.contains c = false)
    (hl : ∀ c, s.data.getLast? = some c → fenceStripChars.contains c = false) :
    clean_response ("```json\n" ++ s ++ "\n```") = s := by
  unfold clean_response
  rw [stripChars_fence s hs (fun c hc => fence_sub1 (hh c hc))
      (fun c hc => fence_sub1 (hl c hc))]
  rw [stripChars_id s _ (fun c hc => fence_sub2 (hh c hc))
      (fun c hc => fence_sub2 (hl c hc))]
  exact stripWs_id s (fun c hc => fence_sub3 (hh c hc))
    (fun c hc => fence_sub3 (hl c hc))

/-- C8 counterexample: the stage decode does not strip the literal
markers "```json"/"```" but the character set of "```json\n", so the
valid JSON value null — whose text begins with the stripped character n —
is mangled to the unparsable "ull" and decodes to the caller's default
instead of the parsed value, bare and fence-wrapped alike. -/
theorem C8_counterexample :
    parseJson "null" = some Json.null ∧
      clean_response "null" = "ull" ∧
      decode_structured "null" (Json.str "DEFAULT") = Json.str "DEFAULT" ∧
      decode_structured "```json\nnull\n```" (Json.str "DEFAULT") =
        Json.str "DEFAULT" ∧
      Json.str "DEFAULT" ≠ Json.null :=
  ⟨rfl, rfl, rfl, rfl, fun h => Json.noConfusion h⟩

/-- C8 (amended): the structured-response decode strips the CHARACTERS of
"```json\n" (backtick, j, s, o, n, newline) from both ends, then
backticks, then whitespace — not the literal fence markers — attempts a
JSON parse of the cleaned text, returns the parsed value on success, and
on parse failure returns the caller's default unchanged; consequently any
valid JSON text whose first and last characters avoid the stripped
character set and whitespace (for example any object or array literal)
decodes to its parsed value, bare or wrapped in a ```json fence. -/
theorem C8_theorem :
    (∀ (response : String) (dflt : Json),
      parseJson (clean_response response) = none →
        decode_structured response dflt = dflt) ∧
    (∀ (response : String) (v dflt : Json),
      parseJson (clean_response response) = some v →
        decode_structured response dflt = v) ∧
    (∀ (s : String) (j dflt : Json),
      parseJson s = some j →
      (∀ c, s.data.head? = some c → fenceStripChars.contains c = false) →
      (∀ c, s.data.getLast? = some c → fenceStripChars.contains c = false) →
      decode_structured s dflt = j ∧
        decode_structured ("```json\n" ++ s ++ "\n```") dflt = j) := by
  refine ⟨?_, ?_, ?_⟩
  · intro response dflt h
    simp only [decode_structured, h]
  · intro response v dflt h
    simp only [decode_structured, h]
  · intro s j dflt hp hh hl
    have hs : s.data ≠ [] := by
      intro h0
      have hse : s = "" := by
        cases s with
        | mk d =>
          rw [show (String.mk d).data = d from rfl] at h0
          rw [h0]
      rw [hse, show parseJson "" = none from rfl] at hp
      exact Option.noConfusion hp
    constructor
    · simp only [decode_structured, clean_response_id s hh hl, hp]
    · simp only [decode_structured, clean_response_fenced s hs hh hl, hp]

/-- C8 witness: the amended decode laws applied at the unparsable text
"oops" and at the array literal [1], bare and fence-wrapped. -/
theorem C8_witness :
    parseJson "[1]" = some (Json.arr [Json.num 1]) ∧
      parseJson (clean_response "oops") = none ∧
      decode_structured "oops" Json.null = Json.null ∧
      decode_structured "[1]" Json.null = Json.arr [Json.num 1] ∧
      decode_structured ("```json\n" ++ "[1]" ++ "\n```") Json.null =
        Json.arr [Json.num 1] :=
  ⟨rfl, rfl, C8_theorem.1 "oops" Json.null rfl,
    (C8_theorem.2.2 "[1]" (Json.arr [Json.num 1]) Json.null rfl
        (by intro c hc; cases hc; decide)
        (by intro c hc; cases hc; decide)).1,
    (C8_theorem.2.2 "[1]" (Json.arr [Json.num 1]) Json.null rfl
        (by intro c hc; cases hc; decide)
        (by intro c hc; cases hc; decide)).2⟩

/-- C9 witness: the four frame laws applied at the default state and a
model that always answers non-JSON text, each parse-failure hypothesis
discharged by computation. -/
theorem C9_witness :
    ((generate_mapping llm9 emptyState).v1_components = emptyState.v1_components ∧
      (generate_mapping llm9 emptyState).v2_components = emptyState.v2_components ∧
      (generate_mapping llm9 emptyState).constraints = emptyState.constraints ∧
      (generate_mapping llm9 emptyState).migration_plan = emptyState.migration_plan ∧
      (generate_mapping llm9 emptyState).verification_rules = emptyState.verification_rules ∧
      (generate_mapping llm9 emptyState).current_file = emptyState.current_file ∧
      (generate_mapping llm9 emptyState).modified_code = emptyState.modified_code ∧
      (generate_mapping llm9 emptyState).action = emptyState.action) ∧
    ((generate_constraints llm9 emptyState).v1_components = emptyState.v1_components ∧
      (generate_constraints llm9 emptyState).v2_components = emptyState.v2_components ∧
      (generate_constraints llm9 emptyState).component_map = emptyState.component_map ∧
      (generate_constraints llm9 emptyState).migration_plan = emptyState.migration_plan ∧
      (generate_constraints llm9 emptyState).verification_rules = emptyState.verification_rules ∧
      (generate_constraints llm9 emptyState).current_file = emptyState.current_file ∧
      (generate_constraints llm9 emptyState).modified_code = emptyState.modified_code ∧
      (generate_constraints llm9 emptyState).action = emptyState.action) ∧
    ((generate_plan llm9 emptyState).constraints = emptyState.constraints) ∧
    ((generate_verification_rules llm9 emptyState).migration_plan =
      emptyState.migration_plan) :=
  ⟨(C9_theorem llm9 emptyState).1 rfl,
    (C9_theorem llm9 emptyState).2.1 rfl,
    ((C9_theorem llm9 emptyState).2.2.1 rfl).2.2.2.1,
    ((C9_theorem llm9 emptyState).2.2.2 rfl).2.2.2.2.1⟩

end MigrateModus
